import Mathlib

/-!
Verification of the survival-record construction cell of `Lab7.ipynb`
(the only original logic in the repository).  The cell is:

  clinical_data = clinical.copy()
  clinical_data["Date of Last Known Alive"] =
      pd.to_datetime(clinical_data["Date of Last Known Alive"], format="%m/%d/%Y")
  clinical_data["CT Date"] =
      pd.to_datetime(clinical_data["CT Date"], format="%m/%d/%Y")
  clinical_data["time"] =
      (clinical_data["Date of Last Known Alive"] - clinical_data["CT Date"]).dt.days
        - clinical_data['Days between CT and surgery']
  clinical_data["event"] =
      clinical_data["Survival Status"].apply(lambda x: True if x == "Death" else False)
  survival_data = Surv.from_dataframe("event", "time", clinical_data)

The embedding models a dataframe as a list of rows.  Missing values (pandas
NaN / NaT) are `Option.none`.  `pd.to_datetime` with an explicit format and
the default `errors="raise"` maps NaN to NaT and raises on any string that
does not parse, so the whole-column conversion is an `Except`: an error
anywhere aborts the cell.  Timestamp subtraction `.dt.days` is the exact
difference of calendar day numbers; subtraction with a missing operand
propagates NaN.
-/

namespace Lab7

/-- A calendar date (year, month, day). -/
structure Date where
  year : Nat
  month : Nat
  day : Nat
deriving DecidableEq, Repr

/-- Gregorian leap-year rule, as used by Python's `datetime`. -/
def isLeapYear (y : Nat) : Bool :=
  (y % 4 == 0 && y % 100 != 0) || y % 400 == 0

/-- Number of days in a month of a given year. -/
def daysInMonth (y m : Nat) : Nat :=
  if m == 2 then (if isLeapYear y then 29 else 28)
  else if m == 4 || m == 6 || m == 9 || m == 11 then 30
  else 31

/-- Days in year `y` strictly before month `m`. -/
def daysBeforeMonth (leap : Bool) (m : Nat) : Nat :=
  let base :=
    match m with
    | 1 => 0 | 2 => 31 | 3 => 59 | 4 => 90 | 5 => 120 | 6 => 151
    | 7 => 181 | 8 => 212 | 9 => 243 | 10 => 273 | 11 => 304 | _ => 334
  if leap && m > 2 then base + 1 else base

/-- Day number of a date (proleptic Gregorian, day 1 = 0001-01-01), the
quantity whose differences `pandas` timestamp subtraction reports via
`.dt.days`. -/
def toRataDie (d : Date) : Nat :=
  365 * (d.year - 1) + (d.year - 1) / 4 - (d.year - 1) / 100 + (d.year - 1) / 400
    + daysBeforeMonth (isLeapYear d.year) d.month + d.day

/-- `(a - b).days` for two timestamps: exact signed difference of day numbers. -/
def dateDiffDays (a b : Date) : Int :=
  (toRataDie a : Int) - (toRataDie b : Int)

/-- Split a character list on a separator character (used to take a date
string apart at the two slashes of `MM/DD/YYYY`). -/
def splitOnChar (sep : Char) : List Char → List (List Char)
  | [] => [[]]
  | c :: cs =>
    let r := splitOnChar sep cs
    if c == sep then [] :: r
    else
      match r with
      | [] => [[c]]
      | h :: t => (c :: h) :: t

/-- Numeric value of a digit list (most significant first). -/
def digitsToNat (cs : List Char) : Nat :=
  cs.foldl (fun n c => 10 * n + (c.toNat - 48)) 0

/-- One numeric field of a `strptime` pattern: one to `maxLen` digits. -/
def parseNatField (cs : List Char) (maxLen : Nat) : Option Nat :=
  if cs.isEmpty then none
  else if maxLen < cs.length then none
  else if cs.all Char.isDigit then some (digitsToNat cs)
  else none

/-- A (year, month, day) triple is accepted only if it denotes a real
calendar date in `datetime`'s supported year range. -/
def mkValidDate (y m d : Nat) : Option Date :=
  if 1 ≤ y ∧ y ≤ 9999 ∧ 1 ≤ m ∧ m ≤ 12 ∧ 1 ≤ d ∧ d ≤ daysInMonth y m then
    some ⟨y, m, d⟩
  else none

/-- `strptime`-style parse of a date string against `%m/%d/%Y`:
three slash-separated digit fields (month, day, four-digit-max year),
validated as a real calendar date.  `none` means `pd.to_datetime` raises. -/
def parseDateMDY (s : String) : Option Date :=
  match splitOnChar '/' s.toList with
  | [ms, ds, ys] => do
    let m ← parseNatField ms 2
    let d ← parseNatField ds 2
    let y ← parseNatField ys 4
    mkValidDate y m d
  | _ => none

/-- One row of `clinical.csv` as loaded by `pd.read_csv`: the columns the
cell touches, keyed by the subject-identifier column.  `none` is a missing
value (NaN). -/
structure ClinicalRow where
  caseId : String
  dateLastKnownAlive : Option String
  ctDate : Option String
  daysBetweenCTAndSurgery : Option Int
  survivalStatus : Option String
deriving DecidableEq, Repr

/-- One row of `clinical_data` after the cell ran: the original columns
(with the two date columns converted to timestamps) plus the derived
`time` and `event` columns.  `time = none` is NaN. -/
structure OutRow where
  caseId : String
  dateLastKnownAlive : Option Date
  ctDate : Option Date
  daysBetweenCTAndSurgery : Option Int
  survivalStatus : Option String
  time : Option Int
  event : Bool
deriving DecidableEq, Repr

/-- `pd.to_datetime(value, format="%m/%d/%Y")` on one cell: NaN becomes NaT,
a parseable string becomes a timestamp, anything else raises (carrying the
offending string). -/
def toDatetime (os : Option String) : Except String (Option Date) :=
  match os with
  | none => .ok none
  | some s =>
    match parseDateMDY s with
    | some d => .ok (some d)
    | none => .error s

/-- `pd.to_datetime` over a whole column: the first unparseable entry
aborts the conversion. -/
def toDatetimeCol : List (Option String) → Except String (List (Option Date))
  | [] => .ok []
  | os :: rest =>
    match toDatetime os with
    | .error e => .error e
    | .ok d =>
      match toDatetimeCol rest with
      | .error e => .error e
      | .ok l => .ok (d :: l)

/-- The cell's lambda `lambda x: True if x == "Death" else False`, applied
by `Series.apply` to each entry of the `Survival Status` column.  A missing
value (NaN) compares unequal to `"Death"` and yields `False`. -/
def classifyEvent (x : Option String) : Bool :=
  if x == some "Death" then true else false

/-- The `time` entry of one row:
`(lastAlive - ctDate).dt.days - daysBetweenCTAndSurgery`, a NaN (`none`)
whenever any operand is missing. -/
def rowTime (la ct : Option Date) (offset : Option Int) : Option Int := do
  let a ← la
  let c ← ct
  let o ← offset
  pure (dateDiffDays a c - o)

/-- One output row: the copied original columns, the converted dates, and
the derived `time` and `event`. -/
def mkOutRow (r : ClinicalRow) (la ct : Option Date) : OutRow :=
  { caseId := r.caseId
    dateLastKnownAlive := la
    ctDate := ct
    daysBetweenCTAndSurgery := r.daysBetweenCTAndSurgery
    survivalStatus := r.survivalStatus
    time := rowTime la ct r.daysBetweenCTAndSurgery
    event := classifyEvent r.survivalStatus }

/-- Assemble the output rows from the input rows and the two converted
date columns (the three lists are aligned row by row). -/
def computeRows : List ClinicalRow → List (Option Date) → List (Option Date) → List OutRow
  | r :: rs, a :: la, c :: lc => mkOutRow r a c :: computeRows rs la lc
  | _, _, _ => []

/-- The whole cell on the `clinical` dataframe: convert the two date
columns (either conversion may raise), then compute `time` and `event`
column-wise. -/
def runCell (clinical : List ClinicalRow) : Except String (List OutRow) :=
  match toDatetimeCol (clinical.map (·.dateLastKnownAlive)) with
  | .error e => .error e
  | .ok laCol =>
    match toDatetimeCol (clinical.map (·.ctDate)) with
    | .error e => .error e
    | .ok ctCol => .ok (computeRows clinical laCol ctCol)

/-- The value the cell produces for one input row when no conversion
raises: dates parsed where present, `time` and `event` as the cell
computes them. -/
def rowOut (r : ClinicalRow) : OutRow :=
  mkOutRow r (r.dateLastKnownAlive.bind parseDateMDY) (r.ctDate.bind parseDateMDY)

/-- `Surv.from_dataframe("event", "time", clinical_data)`: the structured
array of (event, time) pairs, in row order. -/
def survFromDataFrame (out : List OutRow) : List (Bool × Option Int) :=
  out.map (fun q => (q.event, q.time))

/-- The notebook variables the cell reads and writes. -/
structure NotebookState where
  clinical : List ClinicalRow
  clinical_data : List OutRow
  survival_data : List (Bool × Option Int)
deriving DecidableEq, Repr

/-- Executing the cell on the notebook state: `clinical` is only read
(the cell works on `clinical.copy()`); `clinical_data` and `survival_data`
are assigned. -/
def runSurvivalCell (s : NotebookState) : Except String NotebookState :=
  match runCell s.clinical with
  | .error e => .error e
  | .ok out => .ok { s with clinical_data := out, survival_data := survFromDataFrame out }

/-- A row whose present date strings all parse (so `pd.to_datetime` does
not raise on it). -/
def datesOk (r : ClinicalRow) : Prop :=
  (∀ s, r.dateLastKnownAlive = some s → (parseDateMDY s).isSome) ∧
  (∀ s, r.ctDate = some s → (parseDateMDY s).isSome)

/-! ### Structural lemmas about the cell -/

theorem toDatetime_ok_eq {os : Option String} {od : Option Date}
    (h : toDatetime os = .ok od) : od = os.bind parseDateMDY := by
  cases os with
  | none =>
    simp only [toDatetime, Except.ok.injEq] at h
    simpa using h.symm
  | some s =>
    cases hp : parseDateMDY s with
    | none => simp [toDatetime, hp] at h
    | some d =>
      simp only [toDatetime, hp, Except.ok.injEq] at h
      simp [← h, hp]

theorem toDatetime_ok_of_parses {os : Option String}
    (h : ∀ s, os = some s → (parseDateMDY s).isSome) :
    toDatetime os = .ok (os.bind parseDateMDY) := by
  cases os with
  | none => rfl
  | some s =>
    cases hp : parseDateMDY s with
    | none =>
      have hs := h s rfl
      simp [hp] at hs
    | some d => simp [toDatetime, hp]

theorem toDatetimeCol_ok_eq :
    ∀ {col : List (Option String)} {l : List (Option Date)},
      toDatetimeCol col = .ok l → l = col.map (fun os => os.bind parseDateMDY)
  | [], l, h => by
    simp only [toDatetimeCol, Except.ok.injEq] at h
    simp [← h]
  | os :: rest, l, h => by
    cases ho : toDatetime os with
    | error e => simp [toDatetimeCol, ho] at h
    | ok d =>
      cases hr : toDatetimeCol rest with
      | error e => simp [toDatetimeCol, ho, hr] at h
      | ok tl =>
        simp only [toDatetimeCol, ho, hr, Except.ok.injEq] at h
        have hd := toDatetime_ok_eq ho
        have htl := toDatetimeCol_ok_eq hr
        simp [← h, hd, htl]

theorem toDatetimeCol_ok_of_parses :
    ∀ {col : List (Option String)},
      (∀ os ∈ col, ∀ s, os = some s → (parseDateMDY s).isSome) →
      toDatetimeCol col = .ok (col.map (fun os => os.bind parseDateMDY))
  | [], _ => rfl
  | os :: rest, h => by
    have ho := toDatetime_ok_of_parses (h os (List.mem_cons_self os rest))
    have hr := toDatetimeCol_ok_of_parses
      (fun o ho' s hs => h o (List.mem_cons_of_mem os ho') s hs)
    simp [toDatetimeCol, ho, hr]

theorem toDatetimeCol_error_of_bad :
    ∀ {col : List (Option String)} {s : String},
      some s ∈ col → parseDateMDY s = none → ∃ e, toDatetimeCol col = .error e
  | [], s, hm, _ => by simp at hm
  | os :: rest, s, hm, hp => by
    rcases List.mem_cons.mp hm with he | hm'
    · refine ⟨s, ?_⟩
      simp [toDatetimeCol, ← he, toDatetime, hp]
    · cases ho : toDatetime os with
      | error e => exact ⟨e, by simp [toDatetimeCol, ho]⟩
      | ok d =>
        obtain ⟨e, he⟩ := toDatetimeCol_error_of_bad hm' hp
        exact ⟨e, by simp [toDatetimeCol, ho, he]⟩

theorem computeRows_map (f g : ClinicalRow → Option Date) :
    ∀ rs : List ClinicalRow,
      computeRows rs (rs.map f) (rs.map g) = rs.map (fun r => mkOutRow r (f r) (g r))
  | [] => rfl
  | r :: rs => by simp [computeRows, computeRows_map f g rs]

theorem runCell_eq_of_cols {table : List ClinicalRow}
    {laCol ctCol : List (Option Date)}
    (h1 : toDatetimeCol (table.map (·.dateLastKnownAlive)) = .ok laCol)
    (h2 : toDatetimeCol (table.map (·.ctDate)) = .ok ctCol) :
    runCell table = .ok (computeRows table laCol ctCol) := by
  unfold runCell
  rw [h1, h2]

theorem runCell_error_fst {table : List ClinicalRow} {e : String}
    (h1 : toDatetimeCol (table.map (·.dateLastKnownAlive)) = .error e) :
    runCell table = .error e := by
  unfold runCell
  rw [h1]

theorem runCell_error_snd {table : List ClinicalRow}
    {laCol : List (Option Date)} {e : String}
    (h1 : toDatetimeCol (table.map (·.dateLastKnownAlive)) = .ok laCol)
    (h2 : toDatetimeCol (table.map (·.ctDate)) = .error e) :
    runCell table = .error e := by
  unfold runCell
  rw [h1, h2]

theorem runCell_ok_eq {table : List ClinicalRow} {out : List OutRow}
    (h : runCell table = .ok out) : out = table.map rowOut := by
  cases h1 : toDatetimeCol (table.map (·.dateLastKnownAlive)) with
  | error e => rw [runCell_error_fst h1] at h; exact absurd h (by simp)
  | ok laCol =>
    cases h2 : toDatetimeCol (table.map (·.ctDate)) with
    | error e => rw [runCell_error_snd h1 h2] at h; exact absurd h (by simp)
    | ok ctCol =>
      rw [runCell_eq_of_cols h1 h2] at h
      have e1 := toDatetimeCol_ok_eq h1
      have e2 := toDatetimeCol_ok_eq h2
      rw [List.map_map] at e1 e2
      subst e1 e2
      have := computeRows_map
        (fun r => ((fun os => os.bind parseDateMDY) ∘ fun x => x.dateLastKnownAlive) r)
        (fun r => ((fun os => os.bind parseDateMDY) ∘ fun x => x.ctDate) r) table
      simp only [Except.ok.injEq] at h
      rw [← h]
      exact this.trans rfl

theorem runCell_ok_of_datesOk {table : List ClinicalRow}
    (h : ∀ r ∈ table, datesOk r) : runCell table = .ok (table.map rowOut) := by
  have h1 : toDatetimeCol (table.map (·.dateLastKnownAlive)) =
      .ok ((table.map (·.dateLastKnownAlive)).map (fun os => os.bind parseDateMDY)) := by
    refine toDatetimeCol_ok_of_parses ?_
    intro os hos s hs
    obtain ⟨r, hr, hor⟩ := List.mem_map.mp hos
    refine (h r hr).1 s ?_
    rw [← hs, ← hor]
  have h2 : toDatetimeCol (table.map (·.ctDate)) =
      .ok ((table.map (·.ctDate)).map (fun os => os.bind parseDateMDY)) := by
    refine toDatetimeCol_ok_of_parses ?_
    intro os hos s hs
    obtain ⟨r, hr, hor⟩ := List.mem_map.mp hos
    refine (h r hr).2 s ?_
    rw [← hs, ← hor]
  rw [runCell_eq_of_cols h1 h2]
  rw [List.map_map, List.map_map]
  have := computeRows_map
    (fun r => ((fun os => os.bind parseDateMDY) ∘ fun x => x.dateLastKnownAlive) r)
    (fun r => ((fun os => os.bind parseDateMDY) ∘ fun x => x.ctDate) r) table
  rw [this]
  rfl

theorem runCell_error_of_bad {table : List ClinicalRow} {r : ClinicalRow} {s : String}
    (hr : r ∈ table) (hbad : r.dateLastKnownAlive = some s ∨ r.ctDate = some s)
    (hp : parseDateMDY s = none) : ∃ e, runCell table = .error e := by
  cases h1 : toDatetimeCol (table.map (·.dateLastKnownAlive)) with
  | error e => exact ⟨e, runCell_error_fst h1⟩
  | ok laCol =>
    rcases hbad with hba | hbc
    · obtain ⟨e, he⟩ := toDatetimeCol_error_of_bad
        (List.mem_map.mpr ⟨r, hr, hba⟩) hp
      rw [h1] at he
      exact absurd he (by simp)
    · obtain ⟨e, he⟩ := toDatetimeCol_error_of_bad
        (List.mem_map.mpr ⟨r, hr, hbc⟩) hp
      exact ⟨e, runCell_error_snd h1 he⟩

/-! ### Concrete rows and tables used to instantiate the theorems -/

/-- A fully well-formed record: alive 2020-06-15, CT 2020-01-01, offset 10. -/
def c1row : ClinicalRow :=
  ⟨"R01", some "06/15/2020", some "01/01/2020", some 10, some "Death"⟩

def c1table : List ClinicalRow := [c1row]

/-- A well-formed record. -/
def c3good : ClinicalRow :=
  ⟨"G1", some "01/02/2020", some "01/01/2020", some 0, some "Alive"⟩

/-- A record whose last-known-alive field is not a date. -/
def c3bad : ClinicalRow :=
  ⟨"B1", some "not-a-date", some "01/01/2020", some 0, some "Alive"⟩

def c3table : List ClinicalRow := [c3good, c3bad]

def c4rowA : ClinicalRow :=
  ⟨"A1", some "01/02/2020", some "01/01/2020", some 1, some "Death"⟩

/-- A record with every optional field missing (all NaN). -/
def c4rowB : ClinicalRow := ⟨"A2", none, none, none, none⟩

def c4table : List ClinicalRow := [c4rowA, c4rowB]

/-- Last known alive four days before the CT date, offset 3: time = -7. -/
def c5row : ClinicalRow :=
  ⟨"N1", some "01/01/2020", some "01/05/2020", some 3, some "Alive"⟩

/-- Last known alive 29 days before the CT date, offset 0: time = -29. -/
def c6row : ClinicalRow :=
  ⟨"N2", some "02/01/2020", some "03/01/2020", some 0, some "Death"⟩

/-- A well-formed record with positive duration: time = 30 - 10 = 20. -/
def c6okRow : ClinicalRow :=
  ⟨"P1", some "01/31/2020", some "01/01/2020", some 10, some "Alive"⟩

/-- The example row of the specification. -/
def c7row : ClinicalRow :=
  ⟨"C7", some "06/15/2020", some "01/01/2020", some 10, some "Death"⟩

def c8table : List ClinicalRow :=
  [⟨"D1", some "03/01/2020", some "01/01/2020", some 5, some "Death"⟩]

/-- Two notebook states agreeing on `clinical` but differing elsewhere. -/
def s8a : NotebookState := ⟨c8table, [], []⟩

def s8b : NotebookState := ⟨c8table, [rowOut c5row], [(true, none)]⟩

def c9table : List ClinicalRow := [c4rowA, c3good]

def s9 : NotebookState := ⟨c9table, [], []⟩

/-- A record with a missing offset (`Days between CT and surgery` NaN). -/
def c10row : ClinicalRow :=
  ⟨"M1", some "02/01/2020", some "01/01/2020", none, some "Death"⟩

def c10table : List ClinicalRow := [c10row]

/-! ### The claims -/

/-- Claim C1: for every clinical record whose two date fields parse under
the MM/DD/YYYY format and whose offset is a well-formed integer, the
builder computes `time` exactly as the integer number of days from the
index date (`CT Date`) to the last-known-alive date, minus the offset
(`Days between CT and surgery`), with no rounding and no clamping. -/
theorem builder_time_exact {table : List ClinicalRow} {out : List OutRow}
    (h : runCell table = .ok out) {i : Nat} {r : ClinicalRow} {q : OutRow}
    (hr : table[i]? = some r) (hq : out[i]? = some q)
    {sa sc : String} {la lc : Date} {o : Int}
    (h1 : r.dateLastKnownAlive = some sa) (h2 : parseDateMDY sa = some la)
    (h3 : r.ctDate = some sc) (h4 : parseDateMDY sc = some lc)
    (h5 : r.daysBetweenCTAndSurgery = some o) :
    q.time = some (dateDiffDays la lc - o) := by
  have hout := runCell_ok_eq h
  subst hout
  rw [List.getElem?_map, hr] at hq
  have hq' := Option.some.inj hq
  rw [← hq']
  simp [rowOut, mkOutRow, rowTime, h1, h2, h3, h4, h5]

/-- Witness for C1 at the concrete row `c1row`. -/
theorem builder_time_exact_witness :
    (rowOut c1row).time = some (dateDiffDays ⟨2020, 6, 15⟩ ⟨2020, 1, 1⟩ - 10) :=
  @builder_time_exact c1table [rowOut c1row] rfl 0 c1row (rowOut c1row) rfl rfl
    "06/15/2020" "01/01/2020" ⟨2020, 6, 15⟩ ⟨2020, 1, 1⟩ 10 rfl rfl rfl rfl rfl

/-- Claim C2: the event classification is a total function on status
labels returning true iff the label equals the exact, case-sensitive
sentinel string "Death"; every other value — including "Alive", the empty
string, "DECEASED", and missing values — maps to false (censored). -/
theorem classifyEvent_total_death_sentinel :
    (∀ x : Option String, classifyEvent x = true ↔ x = some "Death") ∧
    classifyEvent (some "Death") = true ∧
    classifyEvent (some "Alive") = false ∧
    classifyEvent (some "") = false ∧
    classifyEvent (some "DECEASED") = false ∧
    classifyEvent none = false := by
  refine ⟨?_, rfl, rfl, rfl, rfl, rfl⟩
  intro x
  simp [classifyEvent]

/-- Claim C3 counterexample: a table of one well-formed row plus one row
with an unparseable date does not yield one Survival Record and one
reported skip — `pd.to_datetime` raises on the bad string, so the whole
cell fails and not even the well-formed row is produced. -/
theorem bad_date_aborts_batch_counterexample :
    runCell c3table = .error "not-a-date" := rfl

/-- Claim C3 as amended: an unparseable date string in any row makes the
whole build fail (the column conversion raises); no per-row skipping and
no skip report happen. -/
theorem build_bad_date_aborts {table : List ClinicalRow} {r : ClinicalRow}
    {s : String} (hr : r ∈ table)
    (hbad : r.dateLastKnownAlive = some s ∨ r.ctDate = some s)
    (hp : parseDateMDY s = none) :
    ∃ e, runCell table = .error e :=
  runCell_error_of_bad hr hbad hp

/-- Witness for the amended C3 at the concrete table `c3table`. -/
theorem build_bad_date_aborts_witness :
    ∃ e, runCell c3table = .error e :=
  @build_bad_date_aborts c3table c3bad "not-a-date"
    (by decide) (Or.inl rfl) (by decide)

/-- Claim C4: for every input table of N clinical records (on which the
build succeeds), build returns exactly N Survival Records, one per input
row, in the same subject order, with each subject identifier preserved
1:1. -/
theorem build_preserves_count_order_ids {table : List ClinicalRow}
    {out : List OutRow} (h : runCell table = .ok out) :
    out.length = table.length ∧
    ∀ i : Nat, out[i]?.map OutRow.caseId = table[i]?.map ClinicalRow.caseId := by
  have he := runCell_ok_eq h
  subst he
  refine ⟨List.length_map _ _, ?_⟩
  intro i
  rw [List.getElem?_map]
  cases table[i]? <;> rfl

/-- Witness for C4 at the concrete two-row table `c4table`. -/
theorem build_preserves_count_order_ids_witness :
    (c4table.map rowOut).length = c4table.length ∧
    ((c4table.map rowOut)[1]?.map OutRow.caseId =
      c4table[1]?.map ClinicalRow.caseId) :=
  ⟨(@build_preserves_count_order_ids c4table (c4table.map rowOut) rfl).1,
   (@build_preserves_count_order_ids c4table (c4table.map rowOut) rfl).2 1⟩

/-- Claim C5 counterexample: the complete cell output for a
negative-duration row.  The row is retained with `time = -7` unchanged,
and the output record consists of nothing but the copied input columns
plus `time` and `event` — no diagnostic flag of any kind is attached,
contrary to the claim. -/
theorem negative_duration_unflagged_counterexample :
    runCell [c5row] =
      .ok [{ caseId := "N1", dateLastKnownAlive := some ⟨2020, 1, 1⟩,
             ctDate := some ⟨2020, 1, 5⟩, daysBetweenCTAndSurgery := some 3,
             survivalStatus := some "Alive", time := some (-7),
             event := false }] := rfl

/-- Claim C5 as amended: a row whose computed duration is negative is
retained in the output with its negative time value unchanged (not
dropped, not clamped to zero); the output row is exactly the pass-through
of the input columns plus `time` and `event`, with no diagnostic flag. -/
theorem negative_duration_retained_unflagged {table : List ClinicalRow}
    {out : List OutRow} (h : runCell table = .ok out) {i : Nat}
    {r : ClinicalRow} (hr : table[i]? = some r)
    {sa sc : String} {la lc : Date} {o : Int}
    (h1 : r.dateLastKnownAlive = some sa) (h2 : parseDateMDY sa = some la)
    (h3 : r.ctDate = some sc) (h4 : parseDateMDY sc = some lc)
    (h5 : r.daysBetweenCTAndSurgery = some o)
    (hneg : dateDiffDays la lc - o < 0) :
    out[i]? = some (rowOut r) ∧
    (rowOut r).time = some (dateDiffDays la lc - o) := by
  have he := runCell_ok_eq h
  subst he
  constructor
  · rw [List.getElem?_map, hr]
    rfl
  · simp [rowOut, mkOutRow, rowTime, h1, h2, h3, h4, h5]

/-- Witness for the amended C5 at the concrete row `c5row`
(duration -4 days, offset 3, time -7). -/
theorem negative_duration_retained_unflagged_witness :
    ([rowOut c5row] : List OutRow)[0]? = some (rowOut c5row) ∧
    (rowOut c5row).time = some (dateDiffDays ⟨2020, 1, 1⟩ ⟨2020, 1, 5⟩ - 3) :=
  @negative_duration_retained_unflagged [c5row] [rowOut c5row] rfl 0 c5row rfl
    "01/01/2020" "01/05/2020" ⟨2020, 1, 1⟩ ⟨2020, 1, 5⟩ 3
    rfl rfl rfl rfl rfl (by decide)

/-- Claim C6 counterexample: an output row whose `time` is negative: the
invariant that every output row holds a non-negative number of days fails
on the code. -/
theorem time_nonneg_invariant_counterexample :
    runCell [c6row] = .ok [rowOut c6row] ∧
    (rowOut c6row).time = some (-29) ∧ (-29 : Int) < 0 :=
  ⟨rfl, rfl, by decide⟩

/-- Claim C6 as amended: an output row's `time` is a signed integer that
is non-negative exactly when the day difference between the two dates is
at least the offset; nothing in the build enforces non-negativity. -/
theorem time_nonneg_iff_diff_ge_offset {table : List ClinicalRow}
    {out : List OutRow} (h : runCell table = .ok out) {i : Nat}
    {r : ClinicalRow} {q : OutRow}
    (hr : table[i]? = some r) (hq : out[i]? = some q)
    {sa sc : String} {la lc : Date} {o t : Int}
    (h1 : r.dateLastKnownAlive = some sa) (h2 : parseDateMDY sa = some la)
    (h3 : r.ctDate = some sc) (h4 : parseDateMDY sc = some lc)
    (h5 : r.daysBetweenCTAndSurgery = some o)
    (ht : q.time = some t) :
    0 ≤ t ↔ o ≤ dateDiffDays la lc := by
  have he := runCell_ok_eq h
  subst he
  rw [List.getElem?_map, hr] at hq
  have hq' := Option.some.inj hq
  rw [← hq'] at ht
  simp [rowOut, mkOutRow, rowTime, h1, h2, h3, h4, h5] at ht
  omega

/-- Witness for the amended C6 at the concrete row `c6okRow`
(day difference 30, offset 10, time 20 ≥ 0). -/
theorem time_nonneg_iff_diff_ge_offset_witness :
    (0 : Int) ≤ 20 ↔ (10 : Int) ≤ dateDiffDays ⟨2020, 1, 31⟩ ⟨2020, 1, 1⟩ :=
  @time_nonneg_iff_diff_ge_offset [c6okRow] [rowOut c6okRow] rfl 0 c6okRow
    (rowOut c6okRow) rfl rfl "01/31/2020" "01/01/2020"
    ⟨2020, 1, 31⟩ ⟨2020, 1, 1⟩ 10 20 rfl rfl rfl rfl rfl rfl

/-- Claim C7 counterexample: on the row with last-known-alive 2020-06-15,
CT date 2020-01-01, offset 10 and status "Death", the cell outputs
`time = 156`, not 166: the 166-day difference has the offset 10
subtracted from it. -/
theorem example_row_counterexample :
    runCell [c7row] = .ok [rowOut c7row] ∧
    (rowOut c7row).time = some 156 ∧
    (rowOut c7row).time ≠ some 166 :=
  ⟨rfl, rfl, by decide⟩

/-- Claim C7 as amended: on that row the builder outputs `time = 156`
(the 166 days between 2020-01-01 and 2020-06-15, minus the offset 10)
and `event = true`. -/
theorem example_row_end_to_end :
    runCell [c7row] = .ok [rowOut c7row] ∧
    (rowOut c7row).time = some 156 ∧
    (rowOut c7row).event = true ∧
    dateDiffDays ⟨2020, 6, 15⟩ ⟨2020, 1, 1⟩ = 166 :=
  ⟨rfl, rfl, rfl, by decide⟩

/-- Claim C8: the builder is deterministic — two notebook states agreeing
on the `clinical` table (whatever their other variables hold) produce the
same `clinical_data` and `survival_data`. -/
theorem build_deterministic {s1 s2 : NotebookState}
    (h : s1.clinical = s2.clinical) :
    (runSurvivalCell s1).map NotebookState.clinical_data =
      (runSurvivalCell s2).map NotebookState.clinical_data ∧
    (runSurvivalCell s1).map NotebookState.survival_data =
      (runSurvivalCell s2).map NotebookState.survival_data := by
  unfold runSurvivalCell
  rw [h]
  cases runCell s2.clinical <;> exact ⟨rfl, rfl⟩

/-- Witness for C8 at two concrete states sharing `clinical` but
differing in their other variables. -/
theorem build_deterministic_witness :
    (runSurvivalCell s8a).map NotebookState.clinical_data =
      (runSurvivalCell s8b).map NotebookState.clinical_data ∧
    (runSurvivalCell s8a).map NotebookState.survival_data =
      (runSurvivalCell s8b).map NotebookState.survival_data :=
  @build_deterministic s8a s8b rfl

/-- Claim C9: the cell leaves the input `clinical` table unchanged — it
computes on `clinical.copy()`, so after a successful run the `clinical`
variable of the state is exactly what it was before. -/
theorem build_input_unchanged {s s' : NotebookState}
    (h : runSurvivalCell s = .ok s') : s'.clinical = s.clinical := by
  unfold runSurvivalCell at h
  cases hc : runCell s.clinical with
  | error e =>
    rw [hc] at h
    exact absurd h (by simp)
  | ok out =>
    rw [hc] at h
    have h' := Except.ok.inj h
    rw [← h']

/-- Witness for C9 at the concrete state `s9`. -/
theorem build_input_unchanged_witness :
    (NotebookState.mk c9table (c9table.map rowOut)
      (survFromDataFrame (c9table.map rowOut))).clinical = s9.clinical :=
  @build_input_unchanged s9
    (NotebookState.mk c9table (c9table.map rowOut)
      (survFromDataFrame (c9table.map rowOut))) rfl

/-- Claim C10: on a table whose dates all parse, the build neither fails
nor skips a row with a missing offset: that row is emitted with
`time = NaN` (the missing offset propagates) while `event` is still
classified normally from the status label. -/
theorem missing_offset_nan_time {table : List ClinicalRow}
    (h : ∀ r ∈ table, datesOk r) :
    runCell table = .ok (table.map rowOut) ∧
    ∀ (i : Nat) (r : ClinicalRow), table[i]? = some r →
      r.daysBetweenCTAndSurgery = none →
      (table.map rowOut)[i]? = some (rowOut r) ∧
      (rowOut r).time = none ∧
      (rowOut r).event = classifyEvent r.survivalStatus := by
  refine ⟨runCell_ok_of_datesOk h, ?_⟩
  intro i r hr hoff
  refine ⟨by rw [List.getElem?_map, hr]; rfl, ?_, rfl⟩
  cases hla : r.dateLastKnownAlive.bind parseDateMDY <;>
    cases hct : r.ctDate.bind parseDateMDY <;>
      simp [rowOut, mkOutRow, rowTime, hoff, hla, hct]

/-- Witness for C10 at the concrete one-row table `c10table` whose only
row has a missing offset and status "Death". -/
theorem missing_offset_nan_time_witness :
    runCell c10table = .ok (c10table.map rowOut) ∧
    (rowOut c10row).time = none ∧ (rowOut c10row).event = true := by
  have hdok : ∀ r ∈ c10table, datesOk r := by
    intro r hr
    have hr' : r = c10row := by
      simpa [c10table] using hr
    subst hr'
    constructor
    · intro s hs
      cases Option.some.inj hs
      decide
    · intro s hs
      cases Option.some.inj hs
      decide
  have H := @missing_offset_nan_time c10table hdok
  refine ⟨H.1, (H.2 0 c10row rfl rfl).2.1, ?_⟩
  exact ((H.2 0 c10row rfl rfl).2.2).trans rfl

end Lab7
